import Mathlib

/-!
Shallow embedding of the plugin-registry / automation core of
mcp-superassistant.

Part 1 models the Zustand adapter store
(src/pages/content/src/stores/adapter.store.ts): the registration map,
the exclusive-adapter pointer, the capability cache and the last-error
slot, together with the six store actions
(registerPlugin / unregisterPlugin / activateAdapter / deactivateAdapter /
updatePluginConfig / setPluginError).  Each store action is modelled as a
pure state transformer; a capability call that may throw in the source
(a plugin's initialize / activate / deactivate / cleanup) is represented
by an oracle argument of type Option String: some e means the call threw
e, none means it returned normally.  Timestamps (registeredAt, lastUsedAt)
and log/event emissions carry no store state and are omitted.

Part 2 models the AutomationService pipeline (automation service source
file): handleToolExecutionComplete and its auto-insert / auto-submit
stages, instrumented to record the capability invocations (insertText /
attachFile / submitForm) that a run performs, and separately those it
schedules fire-and-forget via setTimeout.
-/

/-- Lifecycle status of a plugin registration, as in the source's
status strings: registered, initialized, active, inactive, error. -/
inductive PluginStatus where
  | registered
  | initialized
  | active
  | inactive
  | error
deriving DecidableEq, Repr

/-- Immutable identity of an adapter plugin: its unique name and its
declared capability tags (the parts of AdapterPlugin the store reads). -/
structure AdapterPlugin where
  name : String
  capabilities : List String
deriving DecidableEq, Repr

/-- Per-registration config; the store only branches on enabled. -/
structure PluginConfig where
  enabled : Bool
deriving DecidableEq, Repr

/-- Mutable runtime record for one registered plugin.  inst models the
optional instance field: in the source the instance, once created, is the
plugin object itself (pluginReg.instance = pluginReg.plugin). -/
structure PluginRegistration where
  plugin : AdapterPlugin
  config : PluginConfig
  status : PluginStatus
  inst : Option AdapterPlugin
  error : Option String
deriving DecidableEq, Repr

/-- The adapter store state: Record of registrations keyed by name,
the exclusive-adapter pointer, the capability cache, the last error. -/
structure AdapterState where
  registeredPlugins : String → Option PluginRegistration
  activeAdapterName : Option String
  currentCapabilities : List String
  lastAdapterError : Option (String × String)

/-- JS object-spread update: { ...m, [k]: v }. -/
def mapInsert (m : String → Option PluginRegistration) (k : String)
    (v : PluginRegistration) : String → Option PluginRegistration :=
  fun n => if n = k then some v else m n

/-- JS destructuring removal: const { [k]: _, ...rest } = m. -/
def mapErase (m : String → Option PluginRegistration) (k : String) :
    String → Option PluginRegistration :=
  fun n => if n = k then none else m n

/-- The store's initialState. -/
def initialState : AdapterState :=
  { registeredPlugins := fun _ => none
    activeAdapterName := none
    currentCapabilities := []
    lastAdapterError := none }

/-- registerPlugin: refuses a duplicate name, otherwise inserts a fresh
registration with status registered and no instance. -/
def registerPlugin (s : AdapterState) (plugin : AdapterPlugin)
    (config : PluginConfig) : Bool × AdapterState :=
  match s.registeredPlugins plugin.name with
  | some _ => (false, s)
  | none =>
    let registration : PluginRegistration :=
      { plugin := plugin, config := config, status := .registered
        inst := none, error := none }
    (true,
      { s with registeredPlugins :=
          mapInsert s.registeredPlugins plugin.name registration })

/-- unregisterPlugin: if the plugin is the active adapter and has an
instance, its deactivate and cleanup capabilities are invoked; a throw
from either (the two oracle arguments) is caught and logged, with no
effect on store state.  The registration is then removed, and if it held
the exclusive slot the pointer is cleared and the capability cache
emptied (both conditions read the pre-removal activeAdapterName). -/
def unregisterPlugin (s : AdapterState) (name : String)
    (_deactivateThrow _cleanupThrow : Option String) : AdapterState :=
  match s.registeredPlugins name with
  | none => s
  | some _pluginReg =>
    { s with
      registeredPlugins := mapErase s.registeredPlugins name
      activeAdapterName :=
        if s.activeAdapterName = some name then none else s.activeAdapterName
      currentCapabilities :=
        if s.activeAdapterName = some name then [] else s.currentCapabilities }

/-- setPluginError: marks the registration (when present) as status error
with the error recorded, and always records lastAdapterError. -/
def setPluginError (s : AdapterState) (name : String) (err : String) :
    AdapterState :=
  match s.registeredPlugins name with
  | some pluginReg =>
    let r := { pluginReg with status := PluginStatus.error, error := some err }
    { s with
      registeredPlugins := mapInsert s.registeredPlugins name r
      lastAdapterError := some (name, err) }
  | none => { s with lastAdapterError := some (name, err) }

/-- Outcomes of the capability calls an activateAdapter run can make:
the previous adapter's deactivate, and the target's initialize and
activate (some e = the call threw e). -/
structure ActivateEnv where
  prevDeactivateOutcome : Option String
  initOutcome : Option String
  activateOutcome : Option String
deriving DecidableEq, Repr

/-- activateAdapter, following the source step by step:
unknown or disabled names fail through setPluginError; a different,
non-sidebar current adapter has its deactivate capability invoked with
any error swallowed and, notably, no change to its registration record;
the target is lazily initialized (instance created, status initialized)
when it has no instance; its activate capability is then invoked; on
success status becomes active, the capability cache is replaced, the
last error is cleared, and the pointer is set to the target unless the
target is the persistent sidebar-plugin; a throw from initialize or
activate records status error, the error, and lastAdapterError. -/
def activateAdapter (s : AdapterState) (name : String) (env : ActivateEnv) :
    Bool × AdapterState :=
  match s.registeredPlugins name with
  | none => (false, setPluginError s name "not registered")
  | some pluginReg =>
    if !pluginReg.config.enabled then
      (false, setPluginError s name "disabled")
    else
      -- Eviction step: the previous adapter's deactivate capability is
      -- invoked (unless it is sidebar-plugin), its error logged and
      -- swallowed; the previous registration record is not modified and
      -- env.prevDeactivateOutcome has no effect on the state.
      let initRes : Except String PluginRegistration :=
        if pluginReg.inst.isNone then
          match env.initOutcome with
          | some e => .error e
          | none =>
            .ok { pluginReg with inst := some pluginReg.plugin
                                 status := PluginStatus.initialized }
        else .ok pluginReg
      match initRes with
      | .error e =>
        let r := { pluginReg with status := PluginStatus.error, error := some e }
        (false,
          { s with
            lastAdapterError := some (name, e)
            registeredPlugins := mapInsert s.registeredPlugins name r })
      | .ok reg1 =>
        match env.activateOutcome with
        | some e =>
          let r := { reg1 with status := PluginStatus.error, error := some e }
          (false,
            { s with
              lastAdapterError := some (name, e)
              registeredPlugins := mapInsert s.registeredPlugins name r })
        | none =>
          let reg2 := { reg1 with status := PluginStatus.active }
          (true,
            { s with
              activeAdapterName :=
                if name ≠ "sidebar-plugin" then some name else s.activeAdapterName
              currentCapabilities := reg2.plugin.capabilities
              lastAdapterError := none
              registeredPlugins := mapInsert s.registeredPlugins name reg2 })

/-- deactivateAdapter: a no-op unless the name is registered and holds
the exclusive slot.  The instance's deactivate capability is invoked
(it can only throw when an instance exists); on success status becomes
inactive and the pointer and capability cache are cleared; on a throw
status becomes error, the error and lastAdapterError are recorded, and
the pointer and capability cache are left untouched. -/
def deactivateAdapter (s : AdapterState) (name : String)
    (deactivateOutcome : Option String) : AdapterState :=
  match s.registeredPlugins name with
  | none => s
  | some pluginReg =>
    if s.activeAdapterName ≠ some name then s
    else
      match (if pluginReg.inst.isSome then deactivateOutcome else none) with
      | none =>
        let r := { pluginReg with status := PluginStatus.inactive }
        { s with
          activeAdapterName := none
          currentCapabilities := []
          registeredPlugins := mapInsert s.registeredPlugins name r }
      | some e =>
        let r := { pluginReg with status := PluginStatus.error, error := some e }
        { s with
          lastAdapterError := some (name, e)
          registeredPlugins := mapInsert s.registeredPlugins name r }

/-- updatePluginConfig: merges the partial config (here: the optional
enabled flag) into the registration; if the update leaves the currently
exclusive adapter with enabled = false, deactivateAdapter is triggered. -/
def updatePluginConfig (s : AdapterState) (name : String)
    (enabledUpdate : Option Bool) (deactivateOutcome : Option String) :
    AdapterState :=
  match s.registeredPlugins name with
  | none => s
  | some pluginReg =>
    let newConfig : PluginConfig :=
      { enabled := enabledUpdate.getD pluginReg.config.enabled }
    let r := { pluginReg with config := newConfig }
    let s1 := { s with registeredPlugins := mapInsert s.registeredPlugins name r }
    if s.activeAdapterName = some name ∧ newConfig.enabled = false then
      deactivateAdapter s1 name deactivateOutcome
    else s1

/-- One store call, with the oracle outcomes of the plugin-capability
invocations it may perform. -/
inductive StoreAction where
  | register (plugin : AdapterPlugin) (config : PluginConfig)
  | unregister (name : String) (deactivateThrow cleanupThrow : Option String)
  | activate (name : String) (env : ActivateEnv)
  | deactivate (name : String) (outcome : Option String)
  | updateConfig (name : String) (enabledUpdate : Option Bool)
      (outcome : Option String)
  | setError (name : String) (err : String)

/-- Apply one store call to a state. -/
def step (s : AdapterState) : StoreAction → AdapterState
  | .register p c => (registerPlugin s p c).2
  | .unregister n d cl => unregisterPlugin s n d cl
  | .activate n env => (activateAdapter s n env).2
  | .deactivate n o => deactivateAdapter s n o
  | .updateConfig n u o => updatePluginConfig s n u o
  | .setError n e => setPluginError s n e

/-- Replay a sequence of store calls from the initial state. -/
def runActions (acts : List StoreAction) : AdapterState :=
  acts.foldl step initialState

/-- A state reachable by some sequence of the six store calls. -/
def Reachable (s : AdapterState) : Prop :=
  ∃ acts, runActions acts = s

/-- Status of a named registration, when present. -/
def statusOf (s : AdapterState) (n : String) : Option PluginStatus :=
  (s.registeredPlugins n).map fun r => r.status

/-!
Part 2: the AutomationService pipeline.  A completion event detail, an
automation-policy snapshot and the active-adapter capability bindings
(the snapshot returned by getCurrentAdapterState: the plugin, the three
optional capability functions, and the computed isReady flag) determine
which capabilities a pipeline run invokes.  A capability function that
may throw is modelled with result Option Bool (none = it threw).  The
run is instrumented: calls lists the capability invocations awaited by
the run in order, scheduled lists the fire-and-forget insertions
registered via setTimeout after a successful file attachment.
-/

/-- The automation policy snapshot read from user preferences. -/
structure AutomationState where
  autoInsert : Bool
  autoSubmit : Bool
  autoExecute : Bool
  autoInsertDelay : Nat
  autoSubmitDelay : Nat
  autoExecuteDelay : Nat

/-- The detail payload of a tool-execution-complete event.  A file is
identified by its name; the optional string fields follow JS truthiness
(an empty string is falsy). -/
structure ToolExecutionCompleteDetail where
  result : Option String
  isFileAttachment : Bool
  file : Option String
  confirmationText : Option String
  skipAutoInsertCheck : Bool

/-- The active-adapter snapshot the service obtains: whether a plugin is
bound, which optional capabilities are bound, the outcome each would
produce if invoked (none = the call throws), and the isReady flag. -/
structure AdapterBindings where
  hasPlugin : Bool
  hasInsertText : Bool
  hasAttachFile : Bool
  hasSubmitForm : Bool
  insertOutcome : String → Option Bool
  attachOutcome : String → Option Bool
  submitOutcome : Option Bool
  isReady : Bool

/-- One recorded capability invocation. -/
inductive CapCall where
  | insertCall (text : String)
  | attachCall (file : String)
  | submitCall
deriving DecidableEq, Repr

/-- JS truthiness of an optional string ("" is falsy). -/
def strTruthy : Option String → Bool
  | none => false
  | some s => !(s == "")

/-- The outcome of the auto-insert stage: its boolean result, the
capability calls it awaited, and the insertions it scheduled
fire-and-forget. -/
structure InsertStage where
  success : Bool
  calls : List CapCall
  scheduled : List CapCall
deriving DecidableEq, Repr

/-- handleAutoInsert: returns false without touching any capability when
skipAutoInsertCheck is set or no ready adapter is available.  With a file
attachment and a bound attach capability, attachFile is invoked; on true,
and when non-empty confirmation text and an insert capability are both
present, a confirmation-text insertion is scheduled (not awaited) and the
stage succeeds; a thrown or false attach fails the stage.  Otherwise, with
a truthy textual result and a bound insert capability, insertText is
invoked and its result (false on a throw) is the stage outcome.  With no
valid insertion method the stage fails. -/
def handleAutoInsert (adapter : AdapterBindings)
    (detail : ToolExecutionCompleteDetail) : InsertStage :=
  if detail.skipAutoInsertCheck then ⟨false, [], []⟩
  else if !adapter.isReady || !adapter.hasPlugin then ⟨false, [], []⟩
  else if detail.isFileAttachment && detail.file.isSome && adapter.hasAttachFile then
    let f := detail.file.getD ""
    match adapter.attachOutcome f with
    | none => ⟨false, [.attachCall f], []⟩
    | some false => ⟨false, [.attachCall f], []⟩
    | some true =>
      if strTruthy detail.confirmationText && adapter.hasInsertText then
        ⟨true, [.attachCall f], [.insertCall (detail.confirmationText.getD "")]⟩
      else ⟨true, [.attachCall f], []⟩
  else if strTruthy detail.result && adapter.hasInsertText then
    match adapter.insertOutcome (detail.result.getD "") with
    | none => ⟨false, [.insertCall (detail.result.getD "")], []⟩
    | some b => ⟨b, [.insertCall (detail.result.getD "")], []⟩
  else ⟨false, [], []⟩

/-- handleAutoSubmit: fails without a call when no ready adapter with a
bound submit capability is available; otherwise submitForm is invoked and
its result (false on a throw) is the stage outcome. -/
def handleAutoSubmit (adapter : AdapterBindings) : Bool × List CapCall :=
  if !adapter.isReady || !adapter.hasPlugin || !adapter.hasSubmitForm then
    (false, [])
  else
    match adapter.submitOutcome with
    | none => (false, [.submitCall])
    | some b => (b, [.submitCall])

/-- A whole pipeline run: the awaited capability calls in order and the
fire-and-forget scheduled insertions. -/
structure PipelineRun where
  calls : List CapCall
  scheduled : List CapCall
deriving DecidableEq, Repr

/-- handleToolExecutionComplete: the auto-execute stage only logs (no
capability calls); the auto-insert stage runs when autoInsert is set and
the event does not carry skipAutoInsertCheck; the auto-submit stage runs
only when the insert stage succeeded and autoSubmit is set. -/
def handleToolExecutionComplete (policy : AutomationState)
    (adapter : AdapterBindings) (detail : ToolExecutionCompleteDetail) :
    PipelineRun :=
  let shouldAutoInsert := policy.autoInsert && !detail.skipAutoInsertCheck
  if shouldAutoInsert then
    let ins := handleAutoInsert adapter detail
    if ins.success && policy.autoSubmit then
      let sub := handleAutoSubmit adapter
      ⟨ins.calls ++ sub.2, ins.scheduled⟩
    else ⟨ins.calls, ins.scheduled⟩
  else ⟨[], []⟩

/-!
Shared helper lemmas and concrete fixtures.
-/

theorem mapInsert_self (m : String → Option PluginRegistration) (k : String)
    (v : PluginRegistration) : mapInsert m k v k = some v := by
  simp [mapInsert]

theorem mapInsert_other (m : String → Option PluginRegistration) (k n : String)
    (v : PluginRegistration) (h : n ≠ k) : mapInsert m k v n = m n := by
  simp [mapInsert, h]

theorem mapErase_self (m : String → Option PluginRegistration) (k : String) :
    mapErase m k k = none := by
  simp [mapErase]

theorem setPluginError_pointer (s : AdapterState) (name err : String) :
    (setPluginError s name err).activeAdapterName = s.activeAdapterName := by
  unfold setPluginError
  split <;> rfl

/-- Induction principle for states reachable by store calls. -/
theorem reachable_ind (Inv : AdapterState → Prop) (h0 : Inv initialState)
    (hstep : ∀ s a, Inv s → Inv (step s a)) : ∀ s, Reachable s → Inv s := by
  rintro s ⟨acts, rfl⟩
  unfold runActions
  suffices h : ∀ (l : List StoreAction) (s0 : AdapterState),
      Inv s0 → Inv (List.foldl step s0 l) from h acts initialState h0
  intro l
  induction l with
  | nil => intro s0 hs0; exact hs0
  | cons a rest ih => intro s0 hs0; exact ih (step s0 a) (hstep s0 a hs0)

/-- Concrete site adapter named A. -/
def pluginA : AdapterPlugin := { name := "A", capabilities := ["a-cap"] }

/-- Concrete site adapter named B. -/
def pluginB : AdapterPlugin := { name := "B", capabilities := ["b-cap"] }

/-- An enabled config. -/
def enabledConfig : PluginConfig := { enabled := true }

/-- Capability-call outcomes where nothing throws. -/
def envOk : ActivateEnv :=
  { prevDeactivateOutcome := none, initOutcome := none, activateOutcome := none }

/-- Register A and B and activate A. -/
def traceAB : List StoreAction :=
  [.register pluginA enabledConfig, .register pluginB enabledConfig,
   .activate "A" envOk]

/-- The state with A and B registered and A active. -/
def stateAB : AdapterState := runActions traceAB

/-- traceAB followed by activating B while A is active. -/
def traceABB : List StoreAction := traceAB ++ [.activate "B" envOk]

/-- C6.  Activating an unknown name, or one whose registration is
disabled, returns false and leaves the exclusive-adapter pointer exactly
as it was (the failure goes through setPluginError, which never touches
activeAdapterName). -/
theorem activateAdapter_unknown_or_disabled (s : AdapterState) (name : String)
    (env : ActivateEnv)
    (h : s.registeredPlugins name = none ∨
         ∃ r, s.registeredPlugins name = some r ∧ r.config.enabled = false) :
    (activateAdapter s name env).1 = false ∧
    (activateAdapter s name env).2.activeAdapterName = s.activeAdapterName := by
  unfold activateAdapter
  rcases h with h | ⟨r, hr, hen⟩
  · simp [h, setPluginError_pointer]
  · simp [hr, hen, setPluginError_pointer]

/-- Witness for C6: activating the unknown name X on the empty store. -/
theorem activateAdapter_unknown_or_disabled_witness :
    (activateAdapter initialState "X" envOk).1 = false ∧
    (activateAdapter initialState "X" envOk).2.activeAdapterName =
      initialState.activeAdapterName :=
  activateAdapter_unknown_or_disabled initialState "X" envOk (Or.inl rfl)

/-- C7.  Activating the designated persistent sidebar-plugin leaves the
exclusive-adapter pointer unchanged on every path: the not-registered and
disabled failures go through setPluginError, the initialize/activate
failure paths never write the pointer, and the success path keeps the old
pointer because the target name is sidebar-plugin. -/
theorem activateAdapter_sidebar_preserves_pointer (s : AdapterState)
    (env : ActivateEnv) :
    (activateAdapter s "sidebar-plugin" env).2.activeAdapterName =
      s.activeAdapterName := by
  unfold activateAdapter
  split
  · exact setPluginError_pointer ..
  · split
    · exact setPluginError_pointer ..
    · repeat' split
      all_goals simp_all

/-- C9.  For a registered name, unregisterPlugin always removes the
registration (the model is total: a throwing deactivate or cleanup
capability, the two oracle arguments, is swallowed and has no effect);
and when the name held the exclusive slot, the pointer is cleared and the
capability cache emptied. -/
theorem unregisterPlugin_removes (s : AdapterState) (name : String)
    (r : PluginRegistration) (dthrow cthrow : Option String)
    (h : s.registeredPlugins name = some r) :
    (unregisterPlugin s name dthrow cthrow).registeredPlugins name = none ∧
    (s.activeAdapterName = some name →
      (unregisterPlugin s name dthrow cthrow).activeAdapterName = none ∧
      (unregisterPlugin s name dthrow cthrow).currentCapabilities = []) := by
  constructor
  · unfold unregisterPlugin
    simp [h, mapErase]
  · intro hp
    unfold unregisterPlugin
    simp [h, hp]

/-- Witness for C9: unregistering the active adapter A out of stateAB,
with both its deactivate and cleanup capabilities throwing. -/
theorem unregisterPlugin_removes_witness :
    (unregisterPlugin stateAB "A" (some "dthrow") (some "cthrow")).registeredPlugins "A"
      = none ∧
    (unregisterPlugin stateAB "A" (some "dthrow") (some "cthrow")).activeAdapterName
      = none ∧
    (unregisterPlugin stateAB "A" (some "dthrow") (some "cthrow")).currentCapabilities
      = [] := by
  have h := unregisterPlugin_removes stateAB "A"
    { plugin := pluginA, config := enabledConfig, status := PluginStatus.active
      inst := some pluginA, error := none }
    (some "dthrow") (some "cthrow") (by decide)
  exact ⟨h.1, h.2 (by decide)⟩

/-- C10.  When name is registered with an instance and holds the
exclusive slot and its deactivate capability throws e, deactivateAdapter
marks the registration status error with e recorded, records
lastAdapterError = (name, e), and leaves both the exclusive-adapter
pointer (still name) and the capability cache untouched. -/
theorem deactivateAdapter_error_path (s : AdapterState) (name : String)
    (r : PluginRegistration) (e : String)
    (hr : s.registeredPlugins name = some r)
    (hact : s.activeAdapterName = some name)
    (hinst : r.inst.isSome = true) :
    statusOf (deactivateAdapter s name (some e)) name = some PluginStatus.error ∧
    (deactivateAdapter s name (some e)).lastAdapterError = some (name, e) ∧
    (deactivateAdapter s name (some e)).activeAdapterName = some name ∧
    (deactivateAdapter s name (some e)).currentCapabilities =
      s.currentCapabilities := by
  unfold deactivateAdapter
  simp [hr, hact, hinst, statusOf, mapInsert]

/-- Witness for C10: A holds the slot in stateAB and its deactivate
capability throws boom. -/
theorem deactivateAdapter_error_path_witness :
    statusOf (deactivateAdapter stateAB "A" (some "boom")) "A"
      = some PluginStatus.error ∧
    (deactivateAdapter stateAB "A" (some "boom")).lastAdapterError
      = some ("A", "boom") ∧
    (deactivateAdapter stateAB "A" (some "boom")).activeAdapterName = some "A" ∧
    (deactivateAdapter stateAB "A" (some "boom")).currentCapabilities =
      stateAB.currentCapabilities :=
  deactivateAdapter_error_path stateAB "A"
    { plugin := pluginA, config := enabledConfig, status := PluginStatus.active
      inst := some pluginA, error := none }
    "boom" (by decide) (by decide) (by decide)


/-- Neither of the awaited nor scheduled lists of the auto-insert stage
ever contains a submitForm invocation. -/
theorem handleAutoInsert_no_submit (adapter : AdapterBindings)
    (detail : ToolExecutionCompleteDetail) :
    CapCall.submitCall ∉ (handleAutoInsert adapter detail).calls ∧
    CapCall.submitCall ∉ (handleAutoInsert adapter detail).scheduled := by
  unfold handleAutoInsert
  split
  · simp
  · split
    · simp
    · split
      · rcases hm : adapter.attachOutcome (detail.file.getD "") with _ | b
        · simp [hm]
        · cases b
          · simp [hm]
          · simp only [hm]
            split <;> simp
      · split
        · rcases hi : adapter.insertOutcome (detail.result.getD "") with _ | b
          · simp [hi]
          · simp [hi]
        · simp

/-- C3.  With skipAutoInsertCheck set on the event, a pipeline run under
the policy autoInsert = autoSubmit = true invokes neither the insert nor
the submit capability: the shouldAutoInsert guard is false, so the run
performs and schedules no capability call at all. -/
theorem pipeline_skip_flag_no_insert_no_submit (policy : AutomationState)
    (adapter : AdapterBindings) (detail : ToolExecutionCompleteDetail)
    (hskip : detail.skipAutoInsertCheck = true)
    (hins : policy.autoInsert = true) (hsub : policy.autoSubmit = true) :
    (∀ t, CapCall.insertCall t ∉
        (handleToolExecutionComplete policy adapter detail).calls ∧
      CapCall.insertCall t ∉
        (handleToolExecutionComplete policy adapter detail).scheduled) ∧
    CapCall.submitCall ∉
      (handleToolExecutionComplete policy adapter detail).calls ∧
    CapCall.submitCall ∉
      (handleToolExecutionComplete policy adapter detail).scheduled := by
  simp [handleToolExecutionComplete, hskip]

/-- A ready adapter exposing all three capabilities, none of which throws
and all of which report success. -/
def okAdapter : AdapterBindings :=
  { hasPlugin := true, hasInsertText := true, hasAttachFile := true
    hasSubmitForm := true, insertOutcome := fun _ => some true
    attachOutcome := fun _ => some true, submitOutcome := some true
    isReady := true }

/-- The all-on automation policy with no delays. -/
def allOnPolicy : AutomationState :=
  { autoInsert := true, autoSubmit := true, autoExecute := true
    autoInsertDelay := 0, autoSubmitDelay := 0, autoExecuteDelay := 0 }

/-- A manual-action completion event: a textual result with the
skipAutoInsertCheck escape flag set. -/
def manualDetail : ToolExecutionCompleteDetail :=
  { result := some "r", isFileAttachment := false, file := none
    confirmationText := none, skipAutoInsertCheck := true }

/-- Witness for C3: a manual-action event (skipAutoInsertCheck) with a
result, under the all-on policy and a fully capable adapter. -/
theorem pipeline_skip_flag_no_insert_no_submit_witness :
    (∀ t, CapCall.insertCall t ∉
        (handleToolExecutionComplete allOnPolicy okAdapter manualDetail).calls ∧
      CapCall.insertCall t ∉
        (handleToolExecutionComplete allOnPolicy okAdapter manualDetail).scheduled) ∧
    CapCall.submitCall ∉
      (handleToolExecutionComplete allOnPolicy okAdapter manualDetail).calls ∧
    CapCall.submitCall ∉
      (handleToolExecutionComplete allOnPolicy okAdapter manualDetail).scheduled :=
  pipeline_skip_flag_no_insert_no_submit allOnPolicy okAdapter manualDetail
    rfl rfl rfl

/-- C4.  Whenever the auto-insert stage reports failure (in particular
when insertText was invoked and returned false), the pipeline run does
not invoke submitForm, whatever the autoSubmit flag: the submit stage is
gated on the insert stage's success. -/
theorem pipeline_insert_failure_blocks_submit (policy : AutomationState)
    (adapter : AdapterBindings) (detail : ToolExecutionCompleteDetail)
    (hfail : (handleAutoInsert adapter detail).success = false) :
    CapCall.submitCall ∉
      (handleToolExecutionComplete policy adapter detail).calls ∧
    CapCall.submitCall ∉
      (handleToolExecutionComplete policy adapter detail).scheduled := by
  by_cases hgate : (policy.autoInsert && !detail.skipAutoInsertCheck) = true
  · simpa [handleToolExecutionComplete, hgate, hfail] using
      handleAutoInsert_no_submit adapter detail
  · simp [handleToolExecutionComplete, hgate]

/-- An adapter whose insertText capability is invoked but reports
failure (returns false). -/
def insertFailsAdapter : AdapterBindings :=
  { hasPlugin := true, hasInsertText := true, hasAttachFile := true
    hasSubmitForm := true, insertOutcome := fun _ => some false
    attachOutcome := fun _ => some true, submitOutcome := some true
    isReady := true }

/-- A plain textual-result completion event without the escape flag. -/
def textDetail : ToolExecutionCompleteDetail :=
  { result := some "r", isFileAttachment := false, file := none
    confirmationText := none, skipAutoInsertCheck := false }

/-- Witness for C4: insertText is invoked, returns false, and submitForm
is not invoked although autoSubmit is set. -/
theorem pipeline_insert_failure_blocks_submit_witness :
    CapCall.insertCall "r" ∈
      (handleToolExecutionComplete allOnPolicy insertFailsAdapter textDetail).calls ∧
    CapCall.submitCall ∉
      (handleToolExecutionComplete allOnPolicy insertFailsAdapter textDetail).calls ∧
    CapCall.submitCall ∉
      (handleToolExecutionComplete allOnPolicy insertFailsAdapter textDetail).scheduled :=
  ⟨by decide,
   pipeline_insert_failure_blocks_submit allOnPolicy insertFailsAdapter
     textDetail (by decide)⟩

/-- C8.  For an event that carries a file attachment and non-empty
confirmation text, handled by a ready adapter with the attach capability
bound: attachFile is invoked on the event's file, and when it reports
success and an insertText capability is also bound, the stage schedules
(fire-and-forget, after the settle timeout) an insertText invocation
carrying exactly the event's confirmation text, and succeeds. -/
theorem autoInsert_attach_success_schedules_confirmation
    (adapter : AdapterBindings) (detail : ToolExecutionCompleteDetail)
    (f c : String)
    (hskip : detail.skipAutoInsertCheck = false)
    (hready : adapter.isReady = true) (hplug : adapter.hasPlugin = true)
    (hifa : detail.isFileAttachment = true) (hfile : detail.file = some f)
    (hattach : adapter.hasAttachFile = true)
    (hok : adapter.attachOutcome f = some true)
    (hconf : detail.confirmationText = some c) (hc : c ≠ "")
    (hins : adapter.hasInsertText = true) :
    CapCall.attachCall f ∈ (handleAutoInsert adapter detail).calls ∧
    CapCall.insertCall c ∈ (handleAutoInsert adapter detail).scheduled ∧
    (handleAutoInsert adapter detail).success = true := by
  simp [handleAutoInsert, hskip, hready, hplug, hifa, hfile, hattach, hok,
    hconf, strTruthy, hc, hins]

/-- A file-attachment completion event with confirmation text. -/
def fileDetail : ToolExecutionCompleteDetail :=
  { result := none, isFileAttachment := true, file := some "f.txt"
    confirmationText := some "attached f.txt", skipAutoInsertCheck := false }

/-- Witness for C8: a successful file attachment on a fully capable
adapter schedules the insertion of the exact confirmation text. -/
theorem autoInsert_attach_success_schedules_confirmation_witness :
    CapCall.attachCall "f.txt" ∈ (handleAutoInsert okAdapter fileDetail).calls ∧
    CapCall.insertCall "attached f.txt" ∈
      (handleAutoInsert okAdapter fileDetail).scheduled ∧
    (handleAutoInsert okAdapter fileDetail).success = true :=
  autoInsert_attach_success_schedules_confirmation okAdapter fileDetail
    "f.txt" "attached f.txt" rfl rfl rfl rfl rfl rfl rfl rfl
    (by decide) rfl

/-!
Pointer lemmas: how each store call can change activeAdapterName.
-/

theorem registerPlugin_pointer (s : AdapterState) (p : AdapterPlugin)
    (c : PluginConfig) :
    (registerPlugin s p c).2.activeAdapterName = s.activeAdapterName := by
  unfold registerPlugin
  split <;> rfl

theorem unregisterPlugin_pointer (s : AdapterState) (name : String)
    (d cl : Option String) (m : String)
    (h : (unregisterPlugin s name d cl).activeAdapterName = some m) :
    s.activeAdapterName = some m := by
  unfold unregisterPlugin at h
  split at h
  · exact h
  · dsimp only at h
    split at h
    · exact absurd h (by simp)
    · exact h

theorem deactivateAdapter_pointer (s : AdapterState) (name : String)
    (o : Option String) (m : String)
    (h : (deactivateAdapter s name o).activeAdapterName = some m) :
    s.activeAdapterName = some m := by
  unfold deactivateAdapter at h
  split at h
  · exact h
  · split at h
    · exact h
    · split at h
      · simp at h
      · exact h

theorem updatePluginConfig_pointer (s : AdapterState) (name : String)
    (u : Option Bool) (o : Option String) (m : String)
    (h : (updatePluginConfig s name u o).activeAdapterName = some m) :
    s.activeAdapterName = some m := by
  unfold updatePluginConfig at h
  split at h
  · exact h
  · dsimp only at h
    split at h
    · have h2 := deactivateAdapter_pointer _ _ _ _ h
      exact h2
    · exact h

theorem activateAdapter_pointer (s : AdapterState) (name : String)
    (env : ActivateEnv) (m : String)
    (h : (activateAdapter s name env).2.activeAdapterName = some m) :
    (m = name ∧ name ≠ "sidebar-plugin") ∨ s.activeAdapterName = some m := by
  unfold activateAdapter at h
  split at h
  · right; rwa [setPluginError_pointer] at h
  · split at h
    · right; rwa [setPluginError_pointer] at h
    · split at h
      · split at h
        · right; exact h
        · split at h
          · right; exact h
          · dsimp only at h
            split at h
            · exact Or.inl ⟨(Option.some.inj h).symm, by assumption⟩
            · right; exact h
      · split at h
        · right; exact h
        · dsimp only at h
          split at h
          · exact Or.inl ⟨(Option.some.inj h).symm, by assumption⟩
          · right; exact h

/-- C1 counterexample.  A state reachable by register A, register B,
activate A, activate B in which the two non-persistent registrations A
and B both still carry status active: activating B invokes A's deactivate
capability but never rewrites A's status field, so the claimed invariant
is false. -/
theorem two_nonpersistent_active_reachable :
    ∃ s, Reachable s ∧ ∃ n₁ n₂, n₁ ≠ n₂ ∧
      (∃ r₁, s.registeredPlugins n₁ = some r₁ ∧
        r₁.plugin.name ≠ "sidebar-plugin" ∧ r₁.status = PluginStatus.active) ∧
      (∃ r₂, s.registeredPlugins n₂ = some r₂ ∧
        r₂.plugin.name ≠ "sidebar-plugin" ∧ r₂.status = PluginStatus.active) :=
  ⟨runActions traceABB, ⟨traceABB, rfl⟩, "A", "B", by decide,
   ⟨{ plugin := pluginA, config := enabledConfig, status := PluginStatus.active
      inst := some pluginA, error := none }, by decide, by decide, rfl⟩,
   ⟨{ plugin := pluginB, config := enabledConfig, status := PluginStatus.active
      inst := some pluginB, error := none }, by decide, by decide, rfl⟩⟩

/-- C1 amended.  What the store does enforce: the exclusive-adapter
pointer designates at most one plugin, and in every reachable state it
never designates the persistent sidebar-plugin (the status fields of
evicted adapters, by contrast, may keep the value active). -/
theorem exclusive_slot_invariant :
    ∀ s, Reachable s → ∀ n₁ n₂, s.activeAdapterName = some n₁ →
      s.activeAdapterName = some n₂ → (n₁ = n₂ ∧ n₁ ≠ "sidebar-plugin") := by
  have key : ∀ s, Reachable s →
      ∀ n, s.activeAdapterName = some n → n ≠ "sidebar-plugin" := by
    apply reachable_ind
      (fun s => ∀ n, s.activeAdapterName = some n → n ≠ "sidebar-plugin")
    · intro n h
      simp [initialState] at h
    · intro s a hInv n h
      cases a with
      | register p c =>
        simp only [step] at h
        rw [registerPlugin_pointer] at h
        exact hInv n h
      | unregister nm d cl =>
        simp only [step] at h
        exact hInv n (unregisterPlugin_pointer _ _ _ _ _ h)
      | activate nm env =>
        simp only [step] at h
        rcases activateAdapter_pointer _ _ _ _ h with ⟨rfl, hns⟩ | hp
        · exact hns
        · exact hInv n hp
      | deactivate nm o =>
        simp only [step] at h
        exact hInv n (deactivateAdapter_pointer _ _ _ _ h)
      | updateConfig nm u o =>
        simp only [step] at h
        exact hInv n (updatePluginConfig_pointer _ _ _ _ _ h)
      | setError nm e =>
        simp only [step] at h
        rw [setPluginError_pointer] at h
        exact hInv n h
  intro s hs n₁ n₂ h₁ h₂
  refine ⟨?_, key s hs n₁ h₁⟩
  rw [h₁] at h₂
  exact Option.some.inj h₂

/-- Witness for the amended C1: in the reachable state with A active the
slot holder is unique and is not the sidebar-plugin. -/
theorem exclusive_slot_invariant_witness :
    stateAB.activeAdapterName = some "A" ∧
    (("A" : String) = "A" ∧ ("A" : String) ≠ "sidebar-plugin") :=
  ⟨by decide,
   exclusive_slot_invariant stateAB ⟨traceAB, rfl⟩ "A" "A" (by decide) (by decide)⟩

/-- C2 counterexample.  In the reachable state with non-persistent A
exclusive and active, activating B succeeds, moves the pointer to B, yet
leaves A's status equal to active — not inactive or error as claimed. -/
theorem eviction_leaves_status_active :
    ∃ s a b env, Reachable s ∧ s.activeAdapterName = some a ∧
      statusOf s a = some PluginStatus.active ∧ a ≠ "sidebar-plugin" ∧
      b ≠ a ∧ b ≠ "sidebar-plugin" ∧
      (activateAdapter s b env).1 = true ∧
      (activateAdapter s b env).2.activeAdapterName = some b ∧
      statusOf (activateAdapter s b env).2 a = some PluginStatus.active :=
  ⟨stateAB, "A", "B", envOk, ⟨traceAB, rfl⟩, by decide, by decide, by decide,
   by decide, by decide, by decide, by decide, by decide⟩

/-- Every run of activateAdapter either returns false, or returns true
with the pointer moved (except for the sidebar-plugin), the capabilities
replaced, the last error cleared, and exactly the target's registration
rewritten. -/
theorem activateAdapter_spec (s : AdapterState) (name : String)
    (env : ActivateEnv) :
    (activateAdapter s name env).1 = false ∨
    ∃ reg2, activateAdapter s name env = (true,
      { s with
        activeAdapterName :=
          if name ≠ "sidebar-plugin" then some name else s.activeAdapterName
        currentCapabilities := reg2.plugin.capabilities
        lastAdapterError := none
        registeredPlugins := mapInsert s.registeredPlugins name reg2 }) := by
  unfold activateAdapter
  split
  · left; rfl
  · split
    · left; rfl
    · split
      · split
        · left; rfl
        · split
          · left; rfl
          · right; exact ⟨_, rfl⟩
      · split
        · left; rfl
        · right; exact ⟨_, rfl⟩

/-- C2 amended.  When non-persistent A holds the exclusive slot with
status active and activateAdapter(B) succeeds for a different
non-persistent B, the pointer moves to B, but A's registration record is
left completely unchanged: its status stays active (A's deactivate
capability is invoked, its recorded status is never updated). -/
theorem eviction_frame (s : AdapterState) (a b : String) (env : ActivateEnv)
    (ha : s.activeAdapterName = some a)
    (hstat : statusOf s a = some PluginStatus.active)
    (hans : a ≠ "sidebar-plugin")
    (hab : b ≠ a) (hbs : b ≠ "sidebar-plugin")
    (hsucc : (activateAdapter s b env).1 = true) :
    (activateAdapter s b env).2.activeAdapterName = some b ∧
    (activateAdapter s b env).2.registeredPlugins a = s.registeredPlugins a ∧
    statusOf (activateAdapter s b env).2 a = some PluginStatus.active := by
  rcases activateAdapter_spec s b env with hfalse | ⟨reg2, heq⟩
  · rw [hfalse] at hsucc
    cases hsucc
  · rw [heq]
    have hmap : mapInsert s.registeredPlugins b reg2 a = s.registeredPlugins a :=
      mapInsert_other _ _ _ _ (Ne.symm hab)
    refine ⟨by simp [hbs], hmap, ?_⟩
    unfold statusOf at hstat ⊢
    show Option.map (fun r => r.status) (mapInsert s.registeredPlugins b reg2 a)
      = some PluginStatus.active
    rw [hmap]
    exact hstat

/-- Witness for the amended C2: activating B out of stateAB moves the
pointer to B and leaves A's registration (status active) untouched. -/
theorem eviction_frame_witness :
    (activateAdapter stateAB "B" envOk).2.activeAdapterName = some "B" ∧
    (activateAdapter stateAB "B" envOk).2.registeredPlugins "A" =
      stateAB.registeredPlugins "A" ∧
    statusOf (activateAdapter stateAB "B" envOk).2 "A"
      = some PluginStatus.active :=
  eviction_frame stateAB "A" "B" envOk (by decide) (by decide) (by decide)
    (by decide) (by decide) (by decide)

/-!
Registration evolution: how one store call can change a single
registration record.  Used for the instance-lifecycle invariant.
-/

/-- Statuses compatible with a present instance: everything except the
initial registered status. -/
def instStatusOk : PluginStatus → Bool
  | .registered => false
  | _ => true

/-- How a registration found after one store call relates to what the
same name mapped to before the call: either the name was free (a fresh
record has no instance), or the old record survives with its instance
untouched (status either unchanged or moved to an instance-compatible
status), or the instance was just created (lazy initialization: only when
there was none, and the status moves to an instance-compatible one). -/
def RegEvolve (mOld : Option PluginRegistration)
    (r2 : PluginRegistration) : Prop :=
  (mOld = none ∧ r2.inst = none) ∨
  (∃ r, mOld = some r ∧
    ((r2.inst = r.inst ∧
        (r2.status = r.status ∨ instStatusOk r2.status = true)) ∨
     (r.inst = none ∧ r2.inst = some r2.plugin ∧
        instStatusOk r2.status = true)))

theorem RegEvolve_same (mOld : Option PluginRegistration)
    (r2 : PluginRegistration) (h : mOld = some r2) : RegEvolve mOld r2 :=
  Or.inr ⟨r2, h, Or.inl ⟨rfl, Or.inl rfl⟩⟩

/-- A config-only rewrite of the old record does not affect evolution. -/
theorem RegEvolve_congr (r r' r2 : PluginRegistration)
    (hinst : r'.inst = r.inst) (hstatus : r'.status = r.status)
    (hplugin : r'.plugin = r.plugin)
    (h : RegEvolve (some r') r2) : RegEvolve (some r) r2 := by
  rcases h with ⟨hne, _⟩ | ⟨rr, hrr, hcase⟩
  · exact absurd hne (by simp)
  · injection hrr with hrr
    subst hrr
    right
    refine ⟨r, rfl, ?_⟩
    rcases hcase with ⟨hi, hs⟩ | ⟨hn0, hi, hs⟩
    · exact Or.inl ⟨hi.trans hinst,
        hs.elim (fun e => Or.inl (e.trans hstatus)) Or.inr⟩
    · exact Or.inr ⟨hinst.symm.trans hn0, hi, hs⟩

theorem registerPlugin_evolve (s : AdapterState) (p : AdapterPlugin)
    (c : PluginConfig) (n : String) (r2 : PluginRegistration)
    (h : (registerPlugin s p c).2.registeredPlugins n = some r2) :
    RegEvolve (s.registeredPlugins n) r2 := by
  unfold registerPlugin at h
  split at h
  · exact RegEvolve_same _ _ h
  next hl =>
    by_cases hn : n = p.name
    · subst hn
      simp only [mapInsert_self] at h
      injection h with h
      subst h
      exact Or.inl ⟨hl, rfl⟩
    · simp only [mapInsert_other _ _ _ _ hn] at h
      exact RegEvolve_same _ _ h

theorem unregisterPlugin_evolve (s : AdapterState) (name : String)
    (d cl : Option String) (n : String) (r2 : PluginRegistration)
    (h : (unregisterPlugin s name d cl).registeredPlugins n = some r2) :
    RegEvolve (s.registeredPlugins n) r2 := by
  unfold unregisterPlugin at h
  split at h
  · exact RegEvolve_same _ _ h
  · by_cases hn : n = name
    · subst hn
      simp [mapErase] at h
    · simp only [mapErase, if_neg hn] at h
      exact RegEvolve_same _ _ h

theorem setPluginError_evolve (s : AdapterState) (name err : String)
    (n : String) (r2 : PluginRegistration)
    (h : (setPluginError s name err).registeredPlugins n = some r2) :
    RegEvolve (s.registeredPlugins n) r2 := by
  unfold setPluginError at h
  split at h
  next r hr =>
    by_cases hn : n = name
    · subst hn
      simp only [mapInsert_self] at h
      injection h with h
      subst h
      exact Or.inr ⟨r, hr, Or.inl ⟨rfl, Or.inr rfl⟩⟩
    · simp only [mapInsert_other _ _ _ _ hn] at h
      exact RegEvolve_same _ _ h
  next => exact RegEvolve_same _ _ h

theorem deactivateAdapter_evolve (s : AdapterState) (name : String)
    (o : Option String) (n : String) (r2 : PluginRegistration)
    (h : (deactivateAdapter s name o).registeredPlugins n = some r2) :
    RegEvolve (s.registeredPlugins n) r2 := by
  unfold deactivateAdapter at h
  split at h
  · exact RegEvolve_same _ _ h
  next r hr =>
    split at h
    · exact RegEvolve_same _ _ h
    · split at h
      all_goals
        by_cases hn : n = name
      · subst hn
        simp only [mapInsert_self] at h
        injection h with h
        subst h
        exact Or.inr ⟨r, hr, Or.inl ⟨rfl, Or.inr rfl⟩⟩
      · simp only [mapInsert_other _ _ _ _ hn] at h
        exact RegEvolve_same _ _ h
      · subst hn
        simp only [mapInsert_self] at h
        injection h with h
        subst h
        exact Or.inr ⟨r, hr, Or.inl ⟨rfl, Or.inr rfl⟩⟩
      · simp only [mapInsert_other _ _ _ _ hn] at h
        exact RegEvolve_same _ _ h

theorem activateAdapter_evolve (s : AdapterState) (name : String)
    (env : ActivateEnv) (n : String) (r2 : PluginRegistration)
    (h : (activateAdapter s name env).2.registeredPlugins n = some r2) :
    RegEvolve (s.registeredPlugins n) r2 := by
  unfold activateAdapter at h
  split at h
  · exact setPluginError_evolve _ _ _ _ _ h
  next r hr =>
    split at h
    · exact setPluginError_evolve _ _ _ _ _ h
    · split at h
      next hinstNone =>
        split at h
        · -- initialize threw
          by_cases hn : n = name
          · subst hn
            simp only [mapInsert_self] at h
            injection h with h
            subst h
            exact Or.inr ⟨r, hr, Or.inl ⟨rfl, Or.inr rfl⟩⟩
          · simp only [mapInsert_other _ _ _ _ hn] at h
            exact RegEvolve_same _ _ h
        · split at h
          · -- activate threw after lazy creation
            by_cases hn : n = name
            · subst hn
              simp only [mapInsert_self] at h
              injection h with h
              subst h
              exact Or.inr ⟨r, hr,
                Or.inr ⟨Option.isNone_iff_eq_none.mp hinstNone, rfl, rfl⟩⟩
            · simp only [mapInsert_other _ _ _ _ hn] at h
              exact RegEvolve_same _ _ h
          · -- success after lazy creation
            by_cases hn : n = name
            · subst hn
              simp only [mapInsert_self] at h
              injection h with h
              subst h
              exact Or.inr ⟨r, hr,
                Or.inr ⟨Option.isNone_iff_eq_none.mp hinstNone, rfl, rfl⟩⟩
            · simp only [mapInsert_other _ _ _ _ hn] at h
              exact RegEvolve_same _ _ h
      next hinstSome =>
        split at h
        · -- activate threw, instance already present
          by_cases hn : n = name
          · subst hn
            simp only [mapInsert_self] at h
            injection h with h
            subst h
            exact Or.inr ⟨r, hr, Or.inl ⟨rfl, Or.inr rfl⟩⟩
          · simp only [mapInsert_other _ _ _ _ hn] at h
            exact RegEvolve_same _ _ h
        · -- success, instance already present
          by_cases hn : n = name
          · subst hn
            simp only [mapInsert_self] at h
            injection h with h
            subst h
            exact Or.inr ⟨r, hr, Or.inl ⟨rfl, Or.inr rfl⟩⟩
          · simp only [mapInsert_other _ _ _ _ hn] at h
            exact RegEvolve_same _ _ h

theorem updatePluginConfig_evolve (s : AdapterState) (name : String)
    (u : Option Bool) (o : Option String) (n : String)
    (r2 : PluginRegistration)
    (h : (updatePluginConfig s name u o).registeredPlugins n = some r2) :
    RegEvolve (s.registeredPlugins n) r2 := by
  unfold updatePluginConfig at h
  split at h
  · exact RegEvolve_same _ _ h
  next r hr =>
    dsimp only at h
    split at h
    · have h2 := deactivateAdapter_evolve _ _ _ _ _ h
      by_cases hn : n = name
      · subst hn
        simp only [mapInsert_self] at h2
        rw [hr]
        exact RegEvolve_congr r
          { r with config := { enabled := u.getD r.config.enabled } } r2
          rfl rfl rfl h2
      · simp only [mapInsert_other _ _ _ _ hn] at h2
        exact h2
    · by_cases hn : n = name
      · subst hn
        simp only [mapInsert_self] at h
        injection h with h
        subst h
        exact Or.inr ⟨r, hr, Or.inl ⟨rfl, Or.inl rfl⟩⟩
      · simp only [mapInsert_other _ _ _ _ hn] at h
        exact RegEvolve_same _ _ h

/-- One store call evolves each registration as described by RegEvolve. -/
theorem step_evolve (s : AdapterState) (a : StoreAction) (n : String)
    (r2 : PluginRegistration)
    (h : (step s a).registeredPlugins n = some r2) :
    RegEvolve (s.registeredPlugins n) r2 := by
  cases a with
  | register p c => exact registerPlugin_evolve s p c n r2 h
  | unregister nm d cl => exact unregisterPlugin_evolve s nm d cl n r2 h
  | activate nm env => exact activateAdapter_evolve s nm env n r2 h
  | deactivate nm o => exact deactivateAdapter_evolve s nm o n r2 h
  | updateConfig nm u o => exact updatePluginConfig_evolve s nm u o n r2 h
  | setError nm e => exact setPluginError_evolve s nm e n r2 h

/-- Trace for the C5 counterexample: register A, then record a plugin
error for it via setPluginError (as activateAdapter does for a disabled
plugin): the status becomes error while no instance was ever created. -/
def traceErr : List StoreAction :=
  [.register pluginA enabledConfig, .setError "A" "boom"]

/-- C5 counterexample.  A reachable state holding a registration with
status error and no instance: the claimed iff between instance presence
and a status among initialized, active, inactive, error fails in the
right-to-left direction. -/
theorem error_status_without_instance :
    ∃ s, Reachable s ∧ ∃ r, s.registeredPlugins "A" = some r ∧
      r.status = PluginStatus.error ∧ r.inst = none :=
  ⟨runActions traceErr, ⟨traceErr, rfl⟩,
   { plugin := pluginA, config := enabledConfig, status := PluginStatus.error
     inst := none, error := some "boom" }, by decide, rfl, rfl⟩

theorem instStatusOk_spec (st : PluginStatus) :
    instStatusOk st = true ↔
      (st = PluginStatus.initialized ∨ st = PluginStatus.active ∨
       st = PluginStatus.inactive ∨ st = PluginStatus.error) := by
  cases st <;> simp [instStatusOk]

/-- C5 amended.  The left-to-right half of the claimed invariant holds in
every reachable state: a present instance forces a status among
initialized, active, inactive, error; and the instance is created at most
once and never replaced: once a registration holds instance p, after any
further store call the registration (while it exists) still holds exactly
p.  The converse direction is false (error_status_without_instance). -/
theorem instance_lifecycle :
    (∀ s, Reachable s → ∀ n r, s.registeredPlugins n = some r →
      r.inst.isSome = true →
      (r.status = PluginStatus.initialized ∨ r.status = PluginStatus.active ∨
       r.status = PluginStatus.inactive ∨ r.status = PluginStatus.error)) ∧
    (∀ s a n r p r2, s.registeredPlugins n = some r → r.inst = some p →
      (step s a).registeredPlugins n = some r2 → r2.inst = some p) := by
  constructor
  · have key : ∀ s, Reachable s → ∀ n r, s.registeredPlugins n = some r →
        r.inst.isSome = true → instStatusOk r.status = true := by
      apply reachable_ind (fun s => ∀ n r, s.registeredPlugins n = some r →
        r.inst.isSome = true → instStatusOk r.status = true)
      · intro n r h
        exact absurd h (by simp [initialState])
      · intro s a hInv n r2 h hsome
        rcases step_evolve s a n r2 h with ⟨_, hnone⟩ | ⟨r, hr, hcase⟩
        · rw [hnone] at hsome
          cases hsome
        · rcases hcase with ⟨hi, hst⟩ | ⟨_, _, hok⟩
          · rcases hst with hst | hok
            · rw [hst]
              rw [hi] at hsome
              exact hInv n r hr hsome
            · exact hok
          · exact hok
    intro s hs n r hr hsome
    exact (instStatusOk_spec r.status).mp (key s hs n r hr hsome)
  · intro s a n r p r2 hr hp h2
    rcases step_evolve s a n r2 h2 with ⟨hnone, _⟩ | ⟨r9, hr9, hcase⟩
    · rw [hr] at hnone
      cases hnone
    · rw [hr] at hr9
      injection hr9 with hr9
      subst hr9
      rcases hcase with ⟨hi, _⟩ | ⟨hn0, _, _⟩
      · exact hi.trans hp
      · rw [hp] at hn0
        cases hn0

/-- The registration record for A once it has been activated. -/
def regAactive : PluginRegistration :=
  { plugin := pluginA, config := enabledConfig, status := PluginStatus.active
    inst := some pluginA, error := none }

/-- Witness for the amended C5: A's activated registration in stateAB has
an instance, so its status is among the instance-compatible ones, and one
further store call (activating B) leaves its instance exactly as it was. -/
theorem instance_lifecycle_witness :
    stateAB.registeredPlugins "A" = some regAactive ∧
    (regAactive.status = PluginStatus.initialized ∨
     regAactive.status = PluginStatus.active ∨
     regAactive.status = PluginStatus.inactive ∨
     regAactive.status = PluginStatus.error) ∧
    regAactive.inst = some pluginA :=
  ⟨by decide,
   instance_lifecycle.1 stateAB ⟨traceAB, rfl⟩ "A" regAactive (by decide) rfl,
   instance_lifecycle.2 stateAB (.activate "B" envOk) "A" regAactive pluginA
     regAactive (by decide) rfl (by decide)⟩
